import Mathlib

/-!
Shallow embedding of the VercelCopy county-health lookup service
(`src/app.py`) and its CSV loader (`src/csv_to_sqlite.py`), together with
theorems settling the frozen claims about the natural-language
specification.  Every definition is translated from the Python source;
doc comments record the correspondence.
-/

namespace CountyHealth

/-- Parsed JSON value, as produced by the framework's JSON parser for a
request body.  Objects are association lists in source order; the Python
parser keeps the last binding of a duplicated key, which is reflected in
the lookup function below.  Numeric payloads are modelled as integers;
no predicate in the service ever inspects a numeric payload. -/
inductive JVal where
  | null
  | bool (b : Bool)
  | num (n : Int)
  | str (s : String)
  | arr (xs : List JVal)
  | obj (fields : List (String × JVal))

/-- Dictionary key lookup on a parsed JSON object: the LAST binding of a
key wins, matching Python's json parser building a dict. -/
def jlookup (fields : List (String × JVal)) (k : String) : Option JVal :=
  match fields with
  | [] => none
  | (k₁, v) :: rest =>
    match jlookup rest k with
    | some v₁ => some v₁
    | none => if k₁ == k then some v else none

/-- Models the Python test `data.get('coffee') == 'teapot'`: an absent key
gives None, and Python equality between the string 'teapot' and any
non-string JSON value is False. -/
def isTeapot (v : Option JVal) : Bool :=
  match v with
  | some (.str s) => s == "teapot"
  | _ => false

/-- Models Python's `str.isdigit` character classification: true exactly on
code points with Unicode property Numeric_Type = Decimal or Digit.  The
ranges are transcribed from the Unicode character database (decimal-digit
blocks of the scripts plus the superscript, subscript, circled,
parenthesized, full-stop and mathematical digit forms).  Crucially this is
wider than the ASCII range 0x30-0x39. -/
def pyIsDigitChar (c : Char) : Bool :=
  let n := c.toNat
  (0x30 ≤ n && n ≤ 0x39) ||
  n == 0xB2 || n == 0xB3 || n == 0xB9 ||
  (0x660 ≤ n && n ≤ 0x669) || (0x6F0 ≤ n && n ≤ 0x6F9) ||
  (0x7C0 ≤ n && n ≤ 0x7C9) || (0x966 ≤ n && n ≤ 0x96F) ||
  (0x9E6 ≤ n && n ≤ 0x9EF) || (0xA66 ≤ n && n ≤ 0xA6F) ||
  (0xAE6 ≤ n && n ≤ 0xAEF) || (0xB66 ≤ n && n ≤ 0xB6F) ||
  (0xBE6 ≤ n && n ≤ 0xBEF) || (0xC66 ≤ n && n ≤ 0xC6F) ||
  (0xCE6 ≤ n && n ≤ 0xCEF) || (0xD66 ≤ n && n ≤ 0xD6F) ||
  (0xDE6 ≤ n && n ≤ 0xDEF) || (0xE50 ≤ n && n ≤ 0xE59) ||
  (0xED0 ≤ n && n ≤ 0xED9) || (0xF20 ≤ n && n ≤ 0xF29) ||
  (0x1040 ≤ n && n ≤ 0x1049) || (0x1090 ≤ n && n ≤ 0x1099) ||
  (0x17E0 ≤ n && n ≤ 0x17E9) || (0x1810 ≤ n && n ≤ 0x1819) ||
  (0x1946 ≤ n && n ≤ 0x194F) || (0x19D0 ≤ n && n ≤ 0x19D9) ||
  (0x1A80 ≤ n && n ≤ 0x1A89) || (0x1A90 ≤ n && n ≤ 0x1A99) ||
  (0x1B50 ≤ n && n ≤ 0x1B59) || (0x1BB0 ≤ n && n ≤ 0x1BB9) ||
  (0x1C40 ≤ n && n ≤ 0x1C49) || (0x1C50 ≤ n && n ≤ 0x1C59) ||
  n == 0x2070 || (0x2074 ≤ n && n ≤ 0x2079) ||
  (0x2080 ≤ n && n ≤ 0x2089) ||
  (0x2460 ≤ n && n ≤ 0x2468) || (0x2474 ≤ n && n ≤ 0x247C) ||
  (0x2488 ≤ n && n ≤ 0x2490) || (0x24F5 ≤ n && n ≤ 0x24FD) ||
  (0x2776 ≤ n && n ≤ 0x277E) || (0x2780 ≤ n && n ≤ 0x2788) ||
  (0x278A ≤ n && n ≤ 0x2792) ||
  (0xA620 ≤ n && n ≤ 0xA629) || (0xA8D0 ≤ n && n ≤ 0xA8D9) ||
  (0xA900 ≤ n && n ≤ 0xA909) || (0xA9D0 ≤ n && n ≤ 0xA9D9) ||
  (0xA9F0 ≤ n && n ≤ 0xA9F9) || (0xAA50 ≤ n && n ≤ 0xAA59) ||
  (0xABF0 ≤ n && n ≤ 0xABF9) || (0xFF10 ≤ n && n ≤ 0xFF19) ||
  (0x104A0 ≤ n && n ≤ 0x104A9) || (0x11066 ≤ n && n ≤ 0x1106F) ||
  (0x110F0 ≤ n && n ≤ 0x110F9) || (0x11136 ≤ n && n ≤ 0x1113F) ||
  (0x111D0 ≤ n && n ≤ 0x111D9) || (0x112F0 ≤ n && n ≤ 0x112F9) ||
  (0x11450 ≤ n && n ≤ 0x11459) || (0x114D0 ≤ n && n ≤ 0x114D9) ||
  (0x11650 ≤ n && n ≤ 0x11659) || (0x116C0 ≤ n && n ≤ 0x116C9) ||
  (0x11730 ≤ n && n ≤ 0x11739) || (0x118E0 ≤ n && n ≤ 0x118E9) ||
  (0x11C50 ≤ n && n ≤ 0x11C59) || (0x11D50 ≤ n && n ≤ 0x11D59) ||
  (0x16A60 ≤ n && n ≤ 0x16A69) || (0x16B50 ≤ n && n ≤ 0x16B59) ||
  (0x1D7CE ≤ n && n ≤ 0x1D7FF) || (0x1E950 ≤ n && n ≤ 0x1E959) ||
  (0x1F100 ≤ n && n ≤ 0x1F10A)

/-- Models Python's `str.isdigit` on a whole string: true iff the string is
nonempty and every character is classified as a digit. -/
def pyStrIsDigit (s : String) : Bool :=
  !s.data.isEmpty && s.data.all pyIsDigitChar

/-- The static measure allowlist `VALID_MEASURES` of `src/app.py`, in the
order of the Python set literal. -/
def VALID_MEASURES : List String :=
  [ "Violent crime rate"
  , "Unemployment"
  , "Children in poverty"
  , "Diabetic screening"
  , "Mammography screening"
  , "Preventable hospital stays"
  , "Uninsured"
  , "Sexually transmitted infections"
  , "Physical inactivity"
  , "Adult obesity"
  , "Premature Death"
  , "Daily fine particulate matter" ]

/-- Models Python's `sorted(list(VALID_MEASURES))`: the catalog in
ascending lexicographic order. -/
def sortedMeasures : List String :=
  List.insertionSort (fun a b : String => a ≤ b) VALID_MEASURES

/-- The named validation failures of the Request Validator. -/
inductive VErr where
  | missingZip
  | invalidZip
  | missingMeasure
  | invalidMeasure
deriving DecidableEq

/-- A one-field JSON error object, the uniform error shape of the service. -/
def errObj (msg : String) : JVal :=
  .obj [("error", .str msg)]

/-- The JSON body the service attaches to each 400 validation failure,
copied verbatim from the `jsonify` calls in `validate_request`. -/
def errBody : VErr → JVal
  | .missingZip => errObj "zip is required"
  | .invalidZip => errObj "zip must be a 5-digit string"
  | .missingMeasure => errObj "measure_name is required"
  | .invalidMeasure =>
      .obj [ ("error", .str "Invalid measure_name")
           , ("valid_measures", .arr (sortedMeasures.map .str)) ]

/-- Outcome of the `validate_request` decorator: the teapot easter egg, a
named 400 failure, an unhandled Python exception (escaping to the
framework's generic 500 handler), or success carrying the validated zip
and measure strings. -/
inductive ValidateResult where
  | teapot
  | err (e : VErr)
  | raised
  | ok (zip measure : String)
deriving DecidableEq

/-- The validation logic of the `validate_request` decorator in
`src/app.py`, over the parsed JSON body.  A non-object body raises
`AttributeError` at `data.get('coffee')` (constructor `raised`); an
unhashable `measure_name` value (array or object) raises `TypeError` at
`measure_name not in VALID_MEASURES`.  The zip test is Python's
`isinstance(zip_code, str) and zip_code.isdigit() and len(zip_code) == 5`. -/
def validate_request (body : JVal) : ValidateResult :=
  match body with
  | .obj fields =>
    if isTeapot (jlookup fields "coffee") then .teapot
    else
      match jlookup fields "zip" with
      | none => .err .missingZip
      | some zv =>
        match zv with
        | .str zs =>
          if pyStrIsDigit zs && zs.length == 5 then
            match jlookup fields "measure_name" with
            | none => .err .missingMeasure
            | some (.str ms) =>
                if VALID_MEASURES.contains ms then .ok zs ms
                else .err .invalidMeasure
            | some (.arr _) => .raised
            | some (.obj _) => .raised
            | some _ => .err .invalidMeasure
          else .err .invalidZip
        | _ => .err .invalidZip
  | _ => .raised

/-- Tests whether a parsed JSON value is an object (a Python dict).  Field
access `data.get(...)` on any other parsed value raises `AttributeError`. -/
def isObjB : JVal → Bool
  | .obj _ => true
  | _ => false

/-- Tests whether a parsed JSON value is hashable in Python: arrays
(lists) and objects (dicts) are unhashable, so membership tests against a
set raise `TypeError` on them. -/
def hashableJson : JVal → Bool
  | .arr _ => false
  | .obj _ => false
  | _ => true

/-- A row of the `zip_county` table, restricted to the four columns the
service reads.  Every column of a loaded table is TEXT or NULL, hence
`Option String`. -/
structure ZipRow where
  zip : Option String
  county : Option String
  state_abbreviation : Option String
  county_code : Option String

/-- A row of the `county_health_rankings` table: the fourteen columns the
service selects, each TEXT or NULL. -/
structure HealthRow where
  confidence_interval_lower_bound : Option String
  confidence_interval_upper_bound : Option String
  county : Option String
  county_code : Option String
  data_release_year : Option String
  denominator : Option String
  fipscode : Option String
  measure_id : Option String
  measure_name : Option String
  numerator : Option String
  raw_value : Option String
  state : Option String
  state_code : Option String
  year_span : Option String

/-- SQL equality `column = parameter` under SQLite three-valued logic: a
comparison involving NULL never selects the row. -/
def sqlEq (a b : Option String) : Bool :=
  match a, b with
  | some x, some y => x == y
  | _, _ => false

/-- Comparison key for `ORDER BY year_span DESC`: SQLite's BINARY collation
on TEXT (lexicographic, which for valid UTF-8 agrees with byte order),
with NULL below every string (so NULLs come last in a descending sort). -/
def yearLeB (a b : Option String) : Bool :=
  match a, b with
  | none, _ => true
  | some _, none => false
  | some x, some y => decide (x ≤ y)

/-- Descending order on health rows by `year_span`, as produced by
`ORDER BY year_span DESC`. -/
def hrDesc (a b : HealthRow) : Prop :=
  yearLeB b.year_span a.year_span = true

instance : DecidableRel hrDesc := fun a b =>
  inferInstanceAs (Decidable (yearLeB b.year_span a.year_span = true))

instance : IsTotal HealthRow hrDesc := by
  constructor
  intro a b
  unfold hrDesc
  rcases a.year_span with _ | x <;> rcases b.year_span with _ | y
  · exact Or.inl rfl
  · exact Or.inr rfl
  · exact Or.inl rfl
  · rcases le_total y x with h | h
    · exact Or.inl (by simpa [yearLeB] using h)
    · exact Or.inr (by simpa [yearLeB] using h)

instance : IsTrans HealthRow hrDesc := by
  constructor
  intro a b c hab hbc
  unfold hrDesc at *
  rcases hc : c.year_span with _ | z
  · rcases a.year_span with _ | x <;> rfl
  · rw [hc] at hbc
    rcases hb : b.year_span with _ | y
    · rw [hb] at hbc; exact absurd hbc (by simp [yearLeB])
    · rw [hb] at hab hbc
      rcases ha : a.year_span with _ | x
      · rw [ha] at hab; exact absurd hab (by simp [yearLeB])
      · rw [ha] at hab
        have h1 : y ≤ x := of_decide_eq_true hab
        have h2 : z ≤ y := of_decide_eq_true hbc
        exact decide_eq_true (le_trans h2 h1)

/-- The WHERE clause of the Measure Lookup query of `get_county_data`:
`county = ? AND (state = ? OR state_code = ?) AND measure_name = ?`, the
third parameter being `county_code[:2]` (the first at most two characters
of the resolved county code). -/
def measureMatch (c sa : Option String) (cc m : String) (r : HealthRow) : Bool :=
  sqlEq r.county c &&
  (sqlEq r.state sa || sqlEq r.state_code (some (cc.take 2))) &&
  sqlEq r.measure_name (some m)

/-- The Measure Lookup query for one resolved county tuple: filter the
`county_health_rankings` rows by `measureMatch` and sort the result by
`year_span` descending. -/
def measureLookup (rows : List HealthRow) (c sa : Option String) (cc m : String) :
    List HealthRow :=
  List.insertionSort hrDesc (rows.filter (measureMatch c sa cc m))

/-- First-occurrence deduplication, modelling `SELECT DISTINCT`. -/
def dedupAux [BEq α] (seen : List α) : List α → List α
  | [] => []
  | a :: l => if seen.contains a then dedupAux seen l else a :: dedupAux (a :: seen) l

/-- Deduplicate a list keeping the first occurrence of each element. -/
def dedupFirst [BEq α] (l : List α) : List α := dedupAux [] l

/-- The two tables of the store that the service queries by name. -/
structure DB where
  zip_county : List ZipRow
  county_health_rankings : List HealthRow

/-- Projection of a `zip_county` row to the tuple selected by the County
Resolver query. -/
def projTuple (r : ZipRow) : Option String × Option String × Option String :=
  (r.county, r.state_abbreviation, r.county_code)

/-- The County Resolver query of `get_county_data`:
`SELECT DISTINCT county, state_abbreviation, county_code FROM zip_county
WHERE zip = ?`. -/
def resolveCounties (db : DB) (zip_code : String) :
    List (Option String × Option String × Option String) :=
  dedupFirst ((db.zip_county.filter fun r => sqlEq r.zip (some zip_code)).map projTuple)

/-- Rendering of a stored value at the response boundary:
`str(val) if val is not None else ""`.  A stored TEXT value is already a
string, so `str` is the identity on it. -/
def renderOpt : Option String → String
  | none => ""
  | some s => s

/-- The lower-cased column names of the Measure Lookup SELECT, in query
order (`[column[0].lower() for column in cursor.description]`). -/
def rowCols : List String :=
  [ "confidence_interval_lower_bound"
  , "confidence_interval_upper_bound"
  , "county"
  , "county_code"
  , "data_release_year"
  , "denominator"
  , "fipscode"
  , "measure_id"
  , "measure_name"
  , "numerator"
  , "raw_value"
  , "state"
  , "state_code"
  , "year_span" ]

/-- The selected values of a health row, in the same order as `rowCols`. -/
def rowVals (r : HealthRow) : List (Option String) :=
  [ r.confidence_interval_lower_bound
  , r.confidence_interval_upper_bound
  , r.county
  , r.county_code
  , r.data_release_year
  , r.denominator
  , r.fipscode
  , r.measure_id
  , r.measure_name
  , r.numerator
  , r.raw_value
  , r.state
  , r.state_code
  , r.year_span ]

/-- Response-record construction of `get_county_data`:
`dict(zip(columns, [str(val) if val is not None else "" for val in row]))`,
that is, the column names zipped with the rendered string values. -/
def recordToJson (r : HealthRow) : JVal :=
  .obj (((rowCols.zip (rowVals r)).map fun q => (q.1, JVal.str (renderOpt q.2))))

/-- Outcome of `get_county_data`: a caught `sqlite3.Error` (the function
returns None and the route answers 500), an uncaught Python exception
(a NULL `county_code` makes `county_code[:2]` raise `TypeError`, which
`except sqlite3.Error` does not catch), or the list of matching rows. -/
inductive LookupResult where
  | fault
  | raised
  | ok (rows : List HealthRow)

/-- The per-tuple loop of `get_county_data`: for each resolved county
tuple run the Measure Lookup query and concatenate the results in tuple
order.  A tuple whose county code is NULL raises. -/
def lookupTuples (rows : List HealthRow)
    (tuples : List (Option String × Option String × Option String))
    (m : String) : LookupResult :=
  match tuples with
  | [] => .ok []
  | (c, sa, cc?) :: rest =>
    match cc? with
    | none => .raised
    | some cc =>
      match lookupTuples rows rest m with
      | .ok more => .ok (measureLookup rows c sa cc m ++ more)
      | other => other

/-- The function `get_county_data` of `src/app.py`.  The `Option DB`
argument models `get_db()`: `none` is a failed connection (the function
returns None).  An unknown ZIP yields the empty list, not an error. -/
def get_county_data (db? : Option DB) (zip_code measure_name : String) :
    LookupResult :=
  match db? with
  | none => .fault
  | some db =>
    let county_results := resolveCounties db zip_code
    if county_results.isEmpty then .ok []
    else lookupTuples db.county_health_rankings county_results measure_name

/-- An HTTP response: status code and optional JSON body (the teapot
response has an empty, non-JSON body). -/
structure Response where
  status : Nat
  body : Option JVal

/-- The `POST /county_data` route of `src/app.py`, composed of
`validate_request` and the `county_data` handler, over a parsed JSON
body.  An exception escaping the handler is answered by the registered
500 handler with the generic error object. -/
def county_data (db? : Option DB) (body : JVal) : Response :=
  match validate_request body with
  | .teapot => ⟨418, none⟩
  | .err e => ⟨400, some (errBody e)⟩
  | .raised => ⟨500, some (errObj "Internal server error")⟩
  | .ok zip_code measure_name =>
    match get_county_data db? zip_code measure_name with
    | .fault => ⟨500, some (errObj "Database error occurred")⟩
    | .raised => ⟨500, some (errObj "Internal server error")⟩
    | .ok [] => ⟨404, some (errObj "No data found for the given parameters")⟩
    | .ok rs => ⟨200, some (.arr (rs.map recordToJson))⟩

/-- The `GET /measures` route: it never touches the store (the argument is
ignored, modelling that two calls at any two store states agree) and
returns the sorted catalog. -/
def get_measures (_db? : Option DB) : Response :=
  ⟨200, some (.obj [("measures", .arr (sortedMeasures.map .str))])⟩

/-- Whitespace classification of Python's `str.strip`: the ASCII
whitespace and separator controls together with the Unicode space
characters. -/
def pySpaceChar (c : Char) : Bool :=
  let n := c.toNat
  (0x09 ≤ n && n ≤ 0x0D) || n == 0x20 || (0x1C ≤ n && n ≤ 0x1F) ||
  n == 0x85 || n == 0xA0 || n == 0x1680 ||
  (0x2000 ≤ n && n ≤ 0x200A) || n == 0x2028 || n == 0x2029 ||
  n == 0x202F || n == 0x205F || n == 0x3000

/-- Cell conversion of the CSV loader (`src/csv_to_sqlite.py`):
`val if val.strip() != '' else None`.  A stripped string is empty exactly
when every character of the original is whitespace, so the test is
modelled structurally; a non-blank cell is kept untrimmed. -/
def pyCell (v : String) : Option String :=
  if v.data.all pySpaceChar then none else some v

/-- Row conversion of the CSV loader: `pyCell` applied to every cell. -/
def processRow (row : List String) : List (Option String) :=
  row.map pyCell

/-- Observable storage events of a CSV loader run: an `executemany`
insert of a batch, a transaction commit, or a rollback. -/
inductive LoadEv where
  | insertMany (batch : List (List (Option String)))
  | commit
  | rollback
deriving DecidableEq

/-- Tests whether a loader event is a batch insert. -/
def isInsert : LoadEv → Bool
  | .insertMany _ => true
  | _ => false

/-- Number of commits in a loader event trace. -/
def commitCount (evs : List LoadEv) : Nat :=
  evs.countP fun e => match e with | .commit => true | _ => false

/-- Number of rollbacks in a loader event trace. -/
def rollbackCount (evs : List LoadEv) : Nat :=
  evs.countP fun e => match e with | .rollback => true | _ => false

/-- Number of full in-loop batch flushes (inserts of exactly 1000 rows)
in a loader event trace. -/
def fullFlushCount (evs : List LoadEv) : Nat :=
  evs.countP fun e => match e with | .insertMany b => b.length == 1000 | _ => false

/-- A failure injected into a loader run: reading the k-th data row from
the CSV iterator raises, or the k-th `executemany` call raises (each
counted from 0).  Either exception lands in the same `except` block of
`main`, which rolls back and exits with status 1. -/
inductive LoadFail where
  | readRow (k : Nat)
  | insertCall (k : Nat)
deriving BEq, DecidableEq

/-- The insert loop of the CSV loader's `main`: read each row, accumulate
rows into a batch, flush with `executemany` when the batch reaches 1000
rows, insert the remaining batch after the loop, then `conn.commit()`
exactly once.  `failAt` injects a read or insert failure; the `except`
block then rolls back and exits with status 1.  The Nat arguments count
the data rows read and the `executemany` calls made so far.  Returns the
event trace and the process exit status. -/
def loadRows (failAt : Option LoadFail) :
    List (List String) → Nat → Nat → List (List (Option String)) →
      List LoadEv × Nat
  | [], _idx, calls, batch =>
    if batch.isEmpty then ([.commit], 0)
    else if failAt == some (.insertCall calls) then ([.rollback], 1)
    else ([.insertMany batch, .commit], 0)
  | row :: rest, idx, calls, batch =>
    if failAt == some (.readRow idx) then ([.rollback], 1)
    else
      let batch2 := batch ++ [processRow row]
      if batch2.length ≥ 1000 then
        if failAt == some (.insertCall calls) then ([.rollback], 1)
        else
          match loadRows failAt rest (idx + 1) (calls + 1) [] with
          | (evs, code) => (.insertMany batch2 :: evs, code)
      else loadRows failAt rest (idx + 1) calls batch2

/-- A run of the CSV loader over the parsed data rows of the file (the
header row is consumed before the insert loop starts). -/
def runLoader (rows : List (List String)) (failAt : Option LoadFail) :
    List LoadEv × Nat :=
  loadRows failAt rows 0 0 []

/-- Sample `zip_county` row: ZIP 10001 resolves to New York county. -/
def sampleZipRow : ZipRow :=
  ⟨some "10001", some "New York", some "NY", some "36061"⟩

/-- Sample health-measure row for New York county, with a NULL numerator
to exercise the null-to-empty-string rendering. -/
def sampleHealthRow : HealthRow :=
  ⟨some "10", some "20", some "New York", some "061", some "2020",
   some "1000", some "36061", some "11", some "Adult obesity", none,
   some "0.25", some "NY", some "36", some "2014-2018"⟩

/-- Sample store with one county mapping and one matching health row. -/
def sampleDb : DB :=
  ⟨[sampleZipRow], [sampleHealthRow]⟩

/-- Sample valid request body for ZIP 10001 and measure Adult obesity. -/
def sampleBody : JVal :=
  .obj [("zip", .str "10001"), ("measure_name", .str "Adult obesity")]

/-- Characterization of SQL equality against a bound string parameter. -/
theorem sqlEq_some_iff {a : Option String} {s : String} :
    sqlEq a (some s) = true ↔ a = some s := by
  cases a <;> simp [sqlEq]

/-- The empty string is a least element of the lexicographic string order. -/
theorem str_empty_le (s : String) : "" ≤ s := by
  rw [String.le_iff_toList_le]
  simp [List.nil_le]

/-- The sorted measure catalog has exactly twelve entries. -/
theorem sortedMeasures_length : sortedMeasures.length = 12 := by
  unfold sortedMeasures
  rw [(List.perm_insertionSort _ _).length_eq]
  rfl

/-- The sorted measure catalog is ascending. -/
theorem sortedMeasures_sorted :
    List.Pairwise (fun a b : String => a ≤ b) sortedMeasures :=
  List.sorted_insertionSort _ VALID_MEASURES

/-- Claim C3: whenever the parsed JSON body has a field `coffee` equal to
the literal string `teapot`, the `POST /county_data` endpoint answers
exactly HTTP 418 with an empty body, for every store state and no matter
which other fields are present, valid or invalid; the check bypasses all
other validation. -/
theorem teapot_short_circuit (db? : Option DB) (fields : List (String × JVal))
    (h : jlookup fields "coffee" = some (.str "teapot")) :
    county_data db? (.obj fields) = ⟨418, none⟩ := by
  simp [county_data, validate_request, h, isTeapot]

/-- Claim C3 witness: a body with the teapot field and an invalid zip
field still gets exactly 418 with an empty body. -/
theorem teapot_short_circuit_witness :
    county_data none (.obj [("coffee", .str "teapot"), ("zip", .num 3)]) =
      ⟨418, none⟩ :=
  teapot_short_circuit none _ rfl

/-- Claim C10: a request body that is valid JSON but not a JSON object
makes the validator's field access raise, so the endpoint answers with
the generic 500 handler's error object and never with a named 400
validation outcome. -/
theorem non_object_body_500 (db? : Option DB) (body : JVal)
    (h : isObjB body = false) :
    county_data db? body = ⟨500, some (errObj "Internal server error")⟩ ∧
    (county_data db? body).status ≠ 400 := by
  have he : county_data db? body = ⟨500, some (errObj "Internal server error")⟩ := by
    cases body with
    | obj fields => exact absurd h (by simp [isObjB])
    | null => rfl
    | bool b => rfl
    | num n => rfl
    | str s => rfl
    | arr xs => rfl
  exact ⟨he, by rw [he]; decide⟩

/-- Claim C10 witness: a JSON-array body is answered by the generic 500
handler. -/
theorem non_object_body_500_witness :
    county_data (some sampleDb) (.arr [JVal.num 1]) =
      ⟨500, some (errObj "Internal server error")⟩ ∧
    (county_data (some sampleDb) (.arr [JVal.num 1])).status ≠ 400 :=
  non_object_body_500 (some sampleDb) (.arr [JVal.num 1]) rfl

/-- Claim C9: `GET /measures` always succeeds with status 200, its payload
is the object with key `measures` holding the catalog sorted ascending
with exactly twelve entries, and any two calls (at any two store states)
produce identical output. -/
theorem measures_route_spec :
    (∀ a b : Option DB, get_measures a = get_measures b) ∧
    get_measures none =
      ⟨200, some (.obj [("measures", .arr (sortedMeasures.map .str))])⟩ ∧
    sortedMeasures.length = 12 ∧
    List.Pairwise (fun a b : String => a ≤ b) sortedMeasures :=
  ⟨fun _ _ => rfl, rfl, sortedMeasures_length, sortedMeasures_sorted⟩

/-- Claim C6 counterexample: a request whose `measure_name` is the JSON
array `[]` is not a member of the Measure Catalog, yet the endpoint does
not answer 400 with the catalog payload: the membership test against the
Python set raises `TypeError` on the unhashable value and the generic 500
handler answers instead. -/
theorem unhashable_measure_500 :
    county_data none (.obj [("zip", .str "02139"), ("measure_name", .arr [])]) =
      ⟨500, some (errObj "Internal server error")⟩ ∧
    (county_data none
      (.obj [("zip", .str "02139"), ("measure_name", .arr [])])).status ≠ 400 :=
  ⟨rfl, by decide⟩

/-- Claim C6 (amended): for every request that passes the zip checks and
whose `measure_name` is a present, hashable JSON value (string, number,
boolean or null) that is not an exact case-sensitive member of the
Measure Catalog, the response is 400 with the `Invalid measure_name`
error whose `valid_measures` payload is the full catalog sorted
ascending, with exactly twelve entries, the same payload regardless of
which invalid value was supplied.  (An unhashable `measure_name` — a
JSON array or object — instead raises and is answered by the generic 500
handler.) -/
theorem invalid_measure_payload (db? : Option DB)
    (fields : List (String × JVal)) (zs : String) (v : JVal)
    (hcoffee : isTeapot (jlookup fields "coffee") = false)
    (hzip : jlookup fields "zip" = some (.str zs))
    (hz : (pyStrIsDigit zs && zs.length == 5) = true)
    (hm : jlookup fields "measure_name" = some v)
    (hhash : hashableJson v = true)
    (hnot : ∀ s, v = .str s → VALID_MEASURES.contains s = false) :
    county_data db? (.obj fields) = ⟨400, some (errBody .invalidMeasure)⟩ ∧
    errBody .invalidMeasure =
      .obj [ ("error", .str "Invalid measure_name")
           , ("valid_measures", .arr (sortedMeasures.map .str)) ] ∧
    sortedMeasures.length = 12 ∧
    List.Pairwise (fun a b : String => a ≤ b) sortedMeasures := by
  have hval : validate_request (.obj fields) = .err .invalidMeasure := by
    simp only [validate_request, hcoffee, Bool.false_eq_true, if_false, hzip, hz, if_true, hm]
    cases v with
    | str s => simp only [hnot s rfl, Bool.false_eq_true, if_false]
    | null => rfl
    | bool b => rfl
    | num n => rfl
    | arr xs => exact absurd hhash (by simp [hashableJson])
    | obj fs => exact absurd hhash (by simp [hashableJson])
  refine ⟨?_, rfl, sortedMeasures_length, sortedMeasures_sorted⟩
  unfold county_data
  rw [hval]

/-- Claim C6 witness: the amended statement at the concrete invalid
measure string `Bogus` against a failed store connection. -/
theorem invalid_measure_payload_witness :
    county_data none (.obj [("zip", .str "02139"), ("measure_name", .str "Bogus")]) =
      ⟨400, some (errBody .invalidMeasure)⟩ ∧
    errBody .invalidMeasure =
      .obj [ ("error", .str "Invalid measure_name")
           , ("valid_measures", .arr (sortedMeasures.map .str)) ] ∧
    sortedMeasures.length = 12 ∧
    List.Pairwise (fun a b : String => a ≤ b) sortedMeasures :=
  invalid_measure_payload none [("zip", .str "02139"), ("measure_name", .str "Bogus")]
    "02139" (.str "Bogus") rfl rfl (by decide) rfl rfl
    (fun s h => by cases h; decide)

/-- A string of length five has a nonempty character list. -/
theorem length_five_not_isEmpty {s : String} (h : s.length = 5) :
    s.data.isEmpty = false := by
  have hd : s.data.length = 5 := h
  cases he : s.data with
  | nil => rw [he] at hd; simp at hd
  | cons a l => rfl

/-- Claim C2 counterexample: the value `1234²` is a five-character string
whose last character is not an ASCII digit, yet Python's `str.isdigit`
classifies the superscript two as a digit, so the validator accepts it
instead of failing with the InvalidZip error the claim requires. -/
theorem zip_unicode_counterexample :
    validate_request
      (.obj [("zip", .str "1234²"), ("measure_name", .str "Adult obesity")]) =
      .ok "1234²" "Adult obesity" ∧
    ("1234²".data.all Char.isDigit) = false :=
  ⟨by decide, by decide⟩

/-- Claim C2 (amended): given a parsed JSON object body that does not
trigger the teapot easter egg and has a `zip` field, the validator fails
with the InvalidZip error exactly when the field value is not a string of
exactly five characters each classified as a digit by Python's
`str.isdigit` — a classification that includes non-ASCII Unicode digits —
and whenever it so fails the endpoint answers 400 with the
`zip must be a 5-digit string` error object. -/
theorem zip_validation_pydigit (fields : List (String × JVal)) (v : JVal)
    (hcoffee : isTeapot (jlookup fields "coffee") = false)
    (hzip : jlookup fields "zip" = some v) :
    (validate_request (.obj fields) = .err .invalidZip ↔
      ¬ ∃ s, v = .str s ∧ s.length = 5 ∧ s.data.all pyIsDigitChar = true) ∧
    (∀ db?, validate_request (.obj fields) = .err .invalidZip →
      county_data db? (.obj fields) = ⟨400, some (errBody .invalidZip)⟩) := by
  have h2 : ∀ db?, validate_request (.obj fields) = .err .invalidZip →
      county_data db? (.obj fields) = ⟨400, some (errBody .invalidZip)⟩ := by
    intro db? h
    unfold county_data
    rw [h]
  refine ⟨?_, h2⟩
  cases v with
  | str s =>
    by_cases hcond : (pyStrIsDigit s && s.length == 5) = true
    · simp only [validate_request, hcoffee, Bool.false_eq_true, if_false, hzip,
        hcond, if_true]
      apply iff_of_false
      · split <;> (try split) <;> intro hx <;> simp_all
      · intro hno
        refine hno ⟨s, rfl, ?_, ?_⟩
        · have hl := (Bool.and_eq_true _ _).mp hcond
          simpa using hl.2
        · have h1 := ((Bool.and_eq_true _ _).mp hcond).1
          exact ((Bool.and_eq_true _ _).mp h1).2
    · have hcf : (pyStrIsDigit s && s.length == 5) = false := by
        revert hcond; cases pyStrIsDigit s && s.length == 5 <;> simp
      simp only [validate_request, hcoffee, Bool.false_eq_true, if_false, hzip,
        hcf]
      rw [true_iff]
      rintro ⟨t, ht, hlen, hall⟩
      cases ht
      refine hcond ?_
      refine (Bool.and_eq_true _ _).mpr
        ⟨(Bool.and_eq_true _ _).mpr ⟨?_, hall⟩, by simp [hlen]⟩
      simp [pyStrIsDigit, length_five_not_isEmpty hlen]
  | null =>
    simp only [validate_request, hcoffee, Bool.false_eq_true, if_false, hzip]
    rw [true_iff]; rintro ⟨t, ht, _⟩; cases ht
  | bool b =>
    simp only [validate_request, hcoffee, Bool.false_eq_true, if_false, hzip]
    rw [true_iff]; rintro ⟨t, ht, _⟩; cases ht
  | num n =>
    simp only [validate_request, hcoffee, Bool.false_eq_true, if_false, hzip]
    rw [true_iff]; rintro ⟨t, ht, _⟩; cases ht
  | arr xs =>
    simp only [validate_request, hcoffee, Bool.false_eq_true, if_false, hzip]
    rw [true_iff]; rintro ⟨t, ht, _⟩; cases ht
  | obj fs =>
    simp only [validate_request, hcoffee, Bool.false_eq_true, if_false, hzip]
    rw [true_iff]; rintro ⟨t, ht, _⟩; cases ht

/-- Claim C2 witness: the amended statement at the concrete non-digit
value `1234a`, which the validator rejects with InvalidZip and the
endpoint answers with 400. -/
theorem zip_validation_pydigit_witness :
    (validate_request (.obj [("zip", .str "1234a")]) = .err .invalidZip ↔
      ¬ ∃ s, JVal.str "1234a" = .str s ∧ s.length = 5 ∧
        s.data.all pyIsDigitChar = true) ∧
    (∀ db?, validate_request (.obj [("zip", .str "1234a")]) = .err .invalidZip →
      county_data db? (.obj [("zip", .str "1234a")]) =
        ⟨400, some (errBody .invalidZip)⟩) :=
  zip_validation_pydigit [("zip", .str "1234a")] (.str "1234a") rfl rfl

/-- Claim C1: a health-measure record is returned by the Measure Lookup
query for a resolved county tuple and validated measure exactly when its
county matches the tuple's county, its measure name matches the requested
measure, and either its state equals the tuple's state abbreviation or
its state code equals the first two characters of the tuple's county
code — both disjuncts of the dual-match policy are live branches of this
equivalence. -/
theorem measure_lookup_mem_iff (rows : List HealthRow) (c sa cc m : String)
    (r : HealthRow) :
    r ∈ measureLookup rows (some c) (some sa) cc m ↔
      r ∈ rows ∧ r.county = some c ∧ r.measure_name = some m ∧
        (r.state = some sa ∨ r.state_code = some (cc.take 2)) := by
  unfold measureLookup
  rw [List.mem_insertionSort, List.mem_filter]
  unfold measureMatch
  simp only [Bool.and_eq_true, Bool.or_eq_true, sqlEq_some_iff]
  tauto

/-- Monotonicity of response-boundary rendering with respect to the
`ORDER BY year_span DESC` comparison: NULL renders as the empty string,
the least string. -/
theorem renderOpt_mono {a b : HealthRow} (h : hrDesc a b) :
    renderOpt b.year_span ≤ renderOpt a.year_span := by
  unfold hrDesc at h
  rcases hb : b.year_span with _ | y
  · exact str_empty_le _
  · rw [hb] at h
    rcases ha : a.year_span with _ | x
    · rw [ha] at h; exact absurd h (by simp [yearLeB])
    · rw [ha] at h
      exact of_decide_eq_true h

/-- Claim C5: for a single resolved county tuple, the sequence of records
the Measure Lookup returns is sorted by the `year_span` field in
descending plain-string (lexicographic) order — a string comparison on
values like `2014-2018`, not a parsed date-range comparison. -/
theorem measure_lookup_sorted_desc (rows : List HealthRow)
    (c sa : Option String) (cc m : String) :
    List.Pairwise
      (fun a b => renderOpt b.year_span ≤ renderOpt a.year_span)
      (measureLookup rows c sa cc m) := by
  unfold measureLookup
  have h := List.sorted_insertionSort hrDesc (rows.filter (measureMatch c sa cc m))
  exact List.Pairwise.imp (fun hab => renderOpt_mono hab) h

/-- An ASCII digit is classified as a digit by Python's `str.isdigit`. -/
theorem pyIsDigitChar_of_isDigit {c : Char} (h : c.isDigit = true) :
    pyIsDigitChar c = true := by
  have hc := (Bool.and_eq_true _ _).mp h
  have h48 : (48 : UInt32) ≤ c.val := of_decide_eq_true hc.1
  have h57 : c.val ≤ (57 : UInt32) := of_decide_eq_true hc.2
  have h48n : 48 ≤ c.toNat := UInt32.le_def.mp h48
  have h57n : c.toNat ≤ 57 := UInt32.le_def.mp h57
  have hfirst : (decide (0x30 ≤ c.toNat) && decide (c.toNat ≤ 0x39)) = true := by
    simp [h48n, h57n]
  unfold pyIsDigitChar
  simp only [hfirst, Bool.true_or]

/-- A string of ASCII digits passes Python's `str.isdigit` test. -/
theorem pyStrIsDigit_of_ascii {s : String} (hlen : s.length = 5)
    (hall : s.data.all Char.isDigit = true) : pyStrIsDigit s = true := by
  unfold pyStrIsDigit
  rw [length_five_not_isEmpty hlen]
  simp only [Bool.not_false, Bool.true_and]
  rw [List.all_eq_true] at hall ⊢
  intro c hcm
  exact pyIsDigitChar_of_isDigit (hall c hcm)

/-- The validator accepts a request body holding a valid ASCII five-digit
zip and a catalog measure, posted as the exact two-field object. -/
theorem validate_ok_of_valid (zs ms : String)
    (hlen : zs.length = 5) (hall : zs.data.all Char.isDigit = true)
    (hms : VALID_MEASURES.contains ms = true) :
    validate_request (.obj [("zip", .str zs), ("measure_name", .str ms)]) =
      .ok zs ms := by
  have hz : (pyStrIsDigit zs && zs.length == 5) = true := by
    refine (Bool.and_eq_true _ _).mpr ⟨pyStrIsDigit_of_ascii hlen hall, by simp [hlen]⟩
  have hcoffee : isTeapot
      (jlookup [("zip", JVal.str zs), ("measure_name", JVal.str ms)] "coffee") = false := rfl
  have hzip : jlookup [("zip", JVal.str zs), ("measure_name", JVal.str ms)] "zip" =
      some (.str zs) := rfl
  have hm : jlookup [("zip", JVal.str zs), ("measure_name", JVal.str ms)] "measure_name" =
      some (.str ms) := rfl
  simp only [validate_request, hcoffee, Bool.false_eq_true, if_false, hzip, hz,
    if_true, hm, hms]

/-- Claim C4: for a valid five-digit ZIP with no row in the `zip_county`
mapping and a catalog measure, the endpoint returns 404 (an empty County
Resolver result is not an error), while a storage-access fault on the
same request yields the distinct 500 outcome — the two are never
conflated. -/
theorem unknown_zip_404 (db : DB) (zs ms : String)
    (hlen : zs.length = 5) (hall : zs.data.all Char.isDigit = true)
    (hms : VALID_MEASURES.contains ms = true)
    (hempty : db.zip_county.filter (fun r => sqlEq r.zip (some zs)) = []) :
    county_data (some db) (.obj [("zip", .str zs), ("measure_name", .str ms)]) =
      ⟨404, some (errObj "No data found for the given parameters")⟩ ∧
    county_data none (.obj [("zip", .str zs), ("measure_name", .str ms)]) =
      ⟨500, some (errObj "Database error occurred")⟩ := by
  have hval := validate_ok_of_valid zs ms hlen hall hms
  have hres : get_county_data (some db) zs ms = .ok [] := by
    simp only [get_county_data, resolveCounties, hempty]
    rfl
  constructor
  · simp only [county_data, hval, hres]
  · simp only [county_data, hval]
    rfl

/-- Claim C4 witness: ZIP 02139 against a store whose mapping table is
empty gets 404, and the same request against a failed connection gets
the storage-fault 500. -/
theorem unknown_zip_404_witness :
    county_data (some ⟨[], []⟩)
      (.obj [("zip", .str "02139"), ("measure_name", .str "Adult obesity")]) =
      ⟨404, some (errObj "No data found for the given parameters")⟩ ∧
    county_data none
      (.obj [("zip", .str "02139"), ("measure_name", .str "Adult obesity")]) =
      ⟨500, some (errObj "Database error occurred")⟩ :=
  unknown_zip_404 ⟨[], []⟩ "02139" "Adult obesity" rfl (by decide) (by decide) rfl

/-- A successful `POST /county_data` response body is the rendering of a
list of health rows. -/
theorem county_data_200_inv (db? : Option DB) (body : JVal) (elems : List JVal)
    (h : county_data db? body = ⟨200, some (.arr elems)⟩) :
    ∃ rs : List HealthRow, elems = rs.map recordToJson := by
  unfold county_data at h
  cases hv : validate_request body with
  | teapot => rw [hv] at h; simp at h
  | err e => rw [hv] at h; simp at h
  | raised => rw [hv] at h; simp at h
  | ok z m =>
    simp only [hv] at h
    cases hg : get_county_data db? z m with
    | fault => rw [hg] at h; simp at h
    | raised => rw [hg] at h; simp at h
    | ok rows =>
      rw [hg] at h
      cases rows with
      | nil => simp at h
      | cons r rest =>
        simp only [Response.mk.injEq, Option.some.injEq, JVal.arr.injEq,
          true_and] at h
        exact ⟨r :: rest, h.symm⟩

/-- Claim C7: every value in a successful `POST /county_data` response is
a JSON string, keyed by lower-cased column name; the rendering maps a
missing (NULL) stored value to the empty string and a present stored
value to itself, so no value is ever a JSON null or number. -/
theorem response_values_strings :
    (∀ (db? : Option DB) (body : JVal) (elems : List JVal),
      county_data db? body = ⟨200, some (.arr elems)⟩ →
      ∀ e ∈ elems, ∃ fields, e = .obj fields ∧
        ∀ p ∈ fields, ∃ s, p.2 = JVal.str s) ∧
    renderOpt none = "" ∧ (∀ s, renderOpt (some s) = s) := by
  refine ⟨?_, rfl, fun s => rfl⟩
  intro db? body elems h e he
  obtain ⟨rs, hrs⟩ := county_data_200_inv db? body elems h
  rw [hrs] at he
  obtain ⟨r, _, hr⟩ := List.mem_map.mp he
  subst hr
  refine ⟨_, rfl, ?_⟩
  intro p hp
  obtain ⟨q, _, hq⟩ := List.mem_map.mp hp
  exact ⟨renderOpt q.2, by rw [← hq]⟩

/-- Claim C7 witness: the first conjunct applied to the concrete sample
store and request, whose successful response consists of the rendered
sample row, together with the rendering equations. -/
theorem response_values_strings_witness :
    (∀ e ∈ [recordToJson sampleHealthRow], ∃ fields, e = .obj fields ∧
      ∀ p ∈ fields, ∃ s, p.2 = JVal.str s) ∧
    renderOpt none = "" :=
  ⟨response_values_strings.1 (some sampleDb) sampleBody
      [recordToJson sampleHealthRow] rfl,
    response_values_strings.2.1⟩

/-- A trace prefix of batch inserts contains no commit and no rollback. -/
theorem all_isInsert_counts {pre : List LoadEv} (h : pre.all isInsert = true) :
    commitCount pre = 0 ∧ rollbackCount pre = 0 := by
  rw [List.all_eq_true] at h
  constructor
  · unfold commitCount
    rw [List.countP_eq_zero]
    intro a ha
    have hae := h a ha
    cases a <;> simp [isInsert] at hae ⊢
  · unfold rollbackCount
    rw [List.countP_eq_zero]
    intro a ha
    have hae := h a ha
    cases a <;> simp [isInsert] at hae ⊢

/-- Every run of the loader's insert loop produces a trace of batch
inserts closed by a single final commit (exit 0) or a single rollback
(exit 1). -/
theorem loadRows_shape (failAt : Option LoadFail) (rows : List (List String)) :
    ∀ (idx calls : Nat) (batch : List (List (Option String))),
      (∃ pre, (loadRows failAt rows idx calls batch).1 = pre ++ [.commit] ∧
        pre.all isInsert = true ∧ (loadRows failAt rows idx calls batch).2 = 0) ∨
      (∃ pre, (loadRows failAt rows idx calls batch).1 = pre ++ [.rollback] ∧
        pre.all isInsert = true ∧ (loadRows failAt rows idx calls batch).2 = 1) := by
  induction rows with
  | nil =>
    intro idx calls batch
    simp only [loadRows]
    split
    · exact Or.inl ⟨[], rfl, rfl, rfl⟩
    · split
      · exact Or.inr ⟨[], rfl, rfl, rfl⟩
      · exact Or.inl ⟨[LoadEv.insertMany batch], rfl, rfl, rfl⟩
  | cons row rest ih =>
    intro idx calls batch
    simp only [loadRows]
    split
    · exact Or.inr ⟨[], rfl, rfl, rfl⟩
    · split
      · split
        · exact Or.inr ⟨[], rfl, rfl, rfl⟩
        · rcases hr : loadRows failAt rest (idx + 1) (calls + 1) [] with ⟨evs, code⟩
          have ih2 := ih (idx + 1) (calls + 1) []
          rw [hr] at ih2
          rcases ih2 with ⟨pre, h1, h2, h3⟩ | ⟨pre, h1, h2, h3⟩
          · exact Or.inl ⟨LoadEv.insertMany (batch ++ [processRow row]) :: pre,
              by simp_all, by simp_all [isInsert], h3⟩
          · exact Or.inr ⟨LoadEv.insertMany (batch ++ [processRow row]) :: pre,
              by simp_all, by simp_all [isInsert], h3⟩
      · exact ih (idx + 1) calls (batch ++ [processRow row])

/-- Without an injected failure the loader's insert loop always exits
with status 0. -/
theorem loadRows_none_exit (rows : List (List String)) :
    ∀ idx calls batch, (loadRows none rows idx calls batch).2 = 0 := by
  induction rows with
  | nil =>
    intro idx calls batch
    simp only [loadRows]
    split
    · rfl
    · rfl
  | cons row rest ih =>
    intro idx calls batch
    simp only [loadRows]
    simp only [show ((none : Option LoadFail) == some (.readRow idx)) = false from rfl,
      Bool.false_eq_true, if_false]
    split
    · rcases hr : loadRows none rest (idx + 1) (calls + 1) [] with ⟨evs, code⟩
      have hc := ih (idx + 1) (calls + 1) []
      rw [hr] at hc
      simp only [show ((none : Option LoadFail) == some (.insertCall calls)) = false from rfl,
        Bool.false_eq_true, if_false, hr]
      exact hc
    · exact ih (idx + 1) calls (batch ++ [processRow row])

/-- Claim C8 (amended): on a run with no failure the loader commits
exactly once, at the very end of the event trace, after all batch
inserts, with exit status 0 and no rollback — it does not commit once
per batch flush; on any failure during read or insert the trace contains
no commit, it ends with a rollback, and the exit status is nonzero. -/
theorem loader_commit_discipline (rows : List (List String)) :
    ((runLoader rows none).2 = 0 ∧
      commitCount (runLoader rows none).1 = 1 ∧
      rollbackCount (runLoader rows none).1 = 0 ∧
      (runLoader rows none).1.getLast? = some .commit) ∧
    (∀ f : LoadFail, (runLoader rows (some f)).2 = 1 →
      commitCount (runLoader rows (some f)).1 = 0 ∧
      (runLoader rows (some f)).1.getLast? = some .rollback) := by
  constructor
  · have hexit := loadRows_none_exit rows 0 0 []
    rcases loadRows_shape none rows 0 0 [] with ⟨pre, h1, h2, h3⟩ | ⟨pre, h1, h2, h3⟩
    · obtain ⟨hc, hrb⟩ := all_isInsert_counts h2
      refine ⟨h3, ?_, ?_, ?_⟩
      · unfold runLoader commitCount
        rw [h1]
        rw [List.countP_append]
        unfold commitCount at hc
        rw [hc]
        rfl
      · unfold runLoader rollbackCount
        rw [h1]
        rw [List.countP_append]
        unfold rollbackCount at hrb
        rw [hrb]
        rfl
      · unfold runLoader
        rw [h1, List.getLast?_concat]
    · rw [hexit] at h3
      cases h3
  · intro f hk
    rcases loadRows_shape (some f) rows 0 0 [] with ⟨pre, h1, h2, h3⟩ | ⟨pre, h1, h2, h3⟩
    · unfold runLoader at hk
      rw [hk] at h3
      cases h3
    · obtain ⟨hc, _⟩ := all_isInsert_counts h2
      constructor
      · unfold runLoader commitCount
        rw [h1]
        rw [List.countP_append]
        unfold commitCount at hc
        rw [hc]
        rfl
      · unfold runLoader
        rw [h1, List.getLast?_concat]

/-- Claim C8 witness: a one-row load commits exactly once and exits 0;
the same load with its single insert call failing, and again with the
read of its single row failing, rolls back with no commit and exits 1. -/
theorem loader_commit_discipline_witness :
    ((runLoader [["a"]] none).2 = 0 ∧
      commitCount (runLoader [["a"]] none).1 = 1 ∧
      rollbackCount (runLoader [["a"]] none).1 = 0 ∧
      (runLoader [["a"]] none).1.getLast? = some .commit) ∧
    (commitCount (runLoader [["a"]] (some (.insertCall 0))).1 = 0 ∧
      (runLoader [["a"]] (some (.insertCall 0))).1.getLast? = some .rollback) ∧
    (commitCount (runLoader [["a"]] (some (.readRow 0))).1 = 0 ∧
      (runLoader [["a"]] (some (.readRow 0))).1.getLast? = some .rollback) :=
  ⟨(loader_commit_discipline [["a"]]).1,
    (loader_commit_discipline [["a"]]).2 (.insertCall 0) rfl,
    (loader_commit_discipline [["a"]]).2 (.readRow 0) rfl⟩

set_option maxRecDepth 100000 in
/-- Claim C8 counterexample: a successful load of exactly 1000 data rows
performs one full in-loop batch flush, yet the whole event trace contains
exactly one commit — not one commit per batch flush plus a final commit,
which would be two. -/
theorem loader_commit_counterexample :
    commitCount (runLoader (List.replicate 1000 ["x"]) none).1 = 1 ∧
    fullFlushCount (runLoader (List.replicate 1000 ["x"]) none).1 = 1 ∧
    (runLoader (List.replicate 1000 ["x"]) none).2 = 0 ∧
    commitCount (runLoader (List.replicate 1000 ["x"]) none).1 ≠
      fullFlushCount (runLoader (List.replicate 1000 ["x"]) none).1 + 1 :=
  ⟨by decide, by decide, by decide, by decide⟩

end CountyHealth
